import Mathlib

/-!
Verification of the container-pool / executor core of the coding-playground
service. The Go source is shallowly embedded: the pool is a record
(`PoolState`) holding the channel contents, the shutdown flag and the
replenishment goroutine's program counter; docker API calls are oracles
(`Except`-valued inputs); the concurrent replenishment / acquire / stop
interleavings are a labelled step relation (`Step`) with an inductive
reachability predicate. Go `select` with several ready cases is pseudo-random,
so such races take an explicit `SelectChoice` resolution argument.
-/

namespace CodingPlayground

/-- ExecutionRequest from internal/executor/executor.go: a request to execute
Python code. -/
structure ExecutionRequest where
  code : String
deriving Repr, DecidableEq

/-- ExecutionResult from internal/executor/executor.go. Duration is modelled
in nanoseconds (Go `time.Duration`). -/
structure ExecutionResult where
  stdout : String
  stderr : String
  exitCode : Int
  duration : Nat
deriving Repr, DecidableEq

/-- Config from internal/executor/docker/config.go. `CPULimit float64` is
omitted: no pool or executor control path reads it (it only parametrises the
docker HostConfig) and floating point is outside the embedding. -/
structure Config where
  image : String
  memoryLimit : Int
  timeout : Nat
  poolSize : Nat
deriving Repr, DecidableEq

/-- DefaultConfig from internal/executor/docker/config.go. -/
def DefaultConfig : Config :=
  { image := "python:3.12-alpine"
    memoryLimit := 128 * 1024 * 1024
    timeout := 5000000000
    poolSize := 3 }

/-- Program counter of the replenishment goroutine `Pool.manager`:
not yet launched, at the top of its for-select loop, blocked on the
`p.containers <- id` / `<-p.done` select with a freshly created container,
or returned. -/
inductive ManagerPC
  | notStarted
  | top
  | pushing (id : String)
  | exited
deriving Repr, DecidableEq

/-- State of a `Pool` (docker package): `buffer` is the current contents of
the buffered channel `p.containers` (head = next to be received),
`poolSize` its capacity, `doneClosed` whether `close(p.done)` has happened,
`started` whether `p.startDone` (a sync.Once) has fired, `launches` counts
`go p.manager()` invocations, `pc` is the manager goroutine's state, and
`removed` accumulates the ids passed to `removeContainer` (ContainerRemove
with Force). -/
structure PoolState where
  poolSize : Nat
  buffer : List String
  doneClosed : Bool
  started : Bool
  launches : Nat
  pc : ManagerPC
  removed : List String
deriving Repr, DecidableEq

/-- NewPool: `containers := make(chan string, cfg.PoolSize)`,
`done := make(chan struct{})`; nothing started yet. -/
def NewPool (cfg : Config) : PoolState :=
  { poolSize := cfg.poolSize
    buffer := []
    doneClosed := false
    started := false
    launches := 0
    pc := ManagerPC.notStarted
    removed := [] }

/-- Pool.Start: `p.startDone.Do(func() { p.wg.Add(1); go p.manager() })`.
The sync.Once guard makes every call after the first a no-op. -/
def PoolState.start (s : PoolState) : PoolState :=
  if s.started then s
  else
    { s with
      started := true
      launches := s.launches + 1
      pc := ManagerPC.top }

/-- Resolution of a Go `select` whose receive-from-pool and context-done
cases are both ready: Go chooses one uniformly pseudo-randomly. -/
inductive SelectChoice
  | recvContainer
  | ctxDone
deriving Repr, DecidableEq

/-- Observable outcome of the `select` inside Pool.GetContainer at a given
instant: a container was received, the context error was returned, or no
case was ready and the call stays blocked. -/
inductive GetResult
  | got (id : String)
  | ctxErr
  | blocked
deriving Repr, DecidableEq

/-- Pool.GetContainer: `select { case id := <-p.containers: return id, nil;
case <-ctx.Done(): return "", ctx.Err() }`. The receive case is ready iff the
buffer is non-empty; the done case is ready iff the context is cancelled;
with both ready, `choice` resolves the race. -/
def PoolState.getContainer (s : PoolState) (ctxCancelled : Bool)
    (choice : SelectChoice) : GetResult × PoolState :=
  match s.buffer, ctxCancelled with
  | id :: rest, false => (GetResult.got id, { s with buffer := rest })
  | [], true => (GetResult.ctxErr, s)
  | [], false => (GetResult.blocked, s)
  | id :: rest, true =>
    match choice with
    | SelectChoice.recvContainer => (GetResult.got id, { s with buffer := rest })
    | SelectChoice.ctxDone => (GetResult.ctxErr, s)

/-- Pool.removeContainer: `p.cli.ContainerRemove(ctx, id, RemoveOptions{Force:
true})`; recorded in the removal log. -/
def PoolState.removeContainer (s : PoolState) (id : String) : PoolState :=
  { s with removed := s.removed ++ [id] }

/-- Go panic values the embedding distinguishes. Closing an already-closed
channel panics. -/
inductive GoPanic
  | closeOfClosedChannel
deriving Repr, DecidableEq

/-- The drain loop at the end of Pool.Stop: `for { select { case id :=
<-p.containers: p.removeContainer(id); default: return } }`, folded over the
buffer contents. -/
def drainList : List String → List String → List String
  | [], removed => removed
  | id :: rest, removed => drainList rest (removed ++ [id])

/-- Pool.Stop: `close(p.done)` (a second call panics: close of closed
channel), `p.wg.Wait()` (returns once the manager goroutine — if ever
launched — has exited; this forced exit is justified by the step-relation
theorems below), then the drain loop removes everything still buffered. -/
def PoolState.stop (s : PoolState) : Except GoPanic PoolState :=
  if s.doneClosed then Except.error GoPanic.closeOfClosedChannel
  else
    Except.ok
      { s with
        doneClosed := true
        pc := if s.pc = ManagerPC.notStarted then ManagerPC.notStarted
              else ManagerPC.exited
        buffer := []
        removed := drainList s.buffer s.removed }

/-- Pool.createContainer: ContainerCreate, then ContainerStart; a start
failure force-removes the freshly created container before returning the
error. The two docker calls are oracles; the second component is the list of
ids passed to ContainerRemove during the call. -/
def createContainer (createRes : Except String String)
    (startRes : String → Except String Unit) :
    Except String String × List String :=
  match createRes with
  | Except.error e => (Except.error ("ContainerCreate failed: " ++ e), [])
  | Except.ok id =>
    match startRes id with
    | Except.error e => (Except.error ("ContainerStart failed: " ++ e), [id])
    | Except.ok _ => (Except.ok id, [])

/-- Oracle for one Executor.Execute run: how the acquire select resolves, the
outcomes of the docker ExecCreate / ExecAttach / ExecInspect calls, which case
of the completion-versus-deadline select fires (`deadlineFirst`), the bytes
stdcopy.StdCopy demultiplexed into the two buffers before that select fired,
and the measured elapsed time. -/
structure ExecEnv where
  ctxCancelled : Bool
  selectChoice : SelectChoice
  execCreate : Except String String
  attach : Except String Unit
  deadlineFirst : Bool
  inspect : Except String Int
  stdoutData : String
  stderrData : String
  elapsed : Nat
deriving Repr

namespace Executor

/-- Executor.Execute (internal/executor/docker, docker.go). Returns `none`
when the acquire select never becomes ready (the call stays blocked and does
not return). Otherwise the triple is (returned value, pool state after the
call, ids passed to ContainerRemove during the call — the deferred cleanup
fires on every exit path after a container was acquired). On the
deadline-first path the code writes the timeout notice into the stderr buffer
and uses exit code 124 without inspecting; on the completion-first path
`finalExitCode` keeps its zero value when ContainerExecInspect errors. -/
def execute (env : ExecEnv) (s : PoolState) (req : ExecutionRequest) :
    Option (Except String ExecutionResult × PoolState × List String) :=
  match s.getContainer env.ctxCancelled env.selectChoice with
  | (GetResult.blocked, _) => none
  | (GetResult.ctxErr, s1) =>
    some (Except.error "failed to get container from pool: ctx error", s1, [])
  | (GetResult.got cid, s1) =>
    let execCmd := ["python", "-c", req.code]
    match env.execCreate with
    | Except.error e =>
      some (Except.error ("failed to create exec: " ++ e), s1, [cid])
    | Except.ok _execID =>
      match env.attach with
      | Except.error e =>
        some (Except.error ("failed to attach to exec: " ++ e), s1, [cid])
      | Except.ok _ =>
        let _ := execCmd
        if env.deadlineFirst then
          some (Except.ok
            { stdout := env.stdoutData
              stderr := env.stderrData ++ "\nExecution timed out.\n"
              exitCode := 124
              duration := env.elapsed }, s1, [cid])
        else
          let finalExitCode :=
            match env.inspect with
            | Except.ok code => code
            | Except.error _ => 0
          some (Except.ok
            { stdout := env.stdoutData
              stderr := env.stderrData
              exitCode := finalExitCode
              duration := env.elapsed }, s1, [cid])

end Executor

/-- Labels for the shared-state transitions: Start, the manager loop's
branches, GetContainer's two returning outcomes, and Stop's close and drain
iterations. -/
inductive Act
  | startCall
  | mgrExit
  | mgrCreateFail
  | mgrCreateOk (id : String)
  | mgrPush (id : String)
  | mgrPushAbort (id : String)
  | mgrFullSleep
  | getOk (id : String)
  | getCancelled
  | stopClose
  | stopDrainOne (id : String)
deriving Repr, DecidableEq

/-- Marks the labels executed by the replenishment goroutine. -/
def Act.isMgr : Act → Bool
  | Act.mgrExit => true
  | Act.mgrCreateFail => true
  | Act.mgrCreateOk _ => true
  | Act.mgrPush _ => true
  | Act.mgrPushAbort _ => true
  | Act.mgrFullSleep => true
  | _ => false

/-- One interleaved transition of the pool. Manager steps follow
Pool.manager: the outer `select { case <-p.done: return; default: ... }`
must take the done case when `done` is closed (Go `select` only falls to
`default` when no other case is ready), so every `default` branch carries
`doneClosed = false`; the inner `select { case p.containers <- id: ...;
case <-p.done: ... }` may take either ready case, so `mgrPush` is allowed
even while shutting down. `getOk` is a GetContainer receive, `stopClose`
models `close(p.done)` and `stopDrainOne` one iteration of Stop's drain loop,
which runs only after `wg.Wait`, hence never concurrently with a live
manager. -/
inductive Step : PoolState → Act → PoolState → Prop
  | startCall (s : PoolState) :
      Step s Act.startCall s.start
  | mgrExit (s : PoolState) (hpc : s.pc = ManagerPC.top)
      (hdone : s.doneClosed = true) :
      Step s Act.mgrExit { s with pc := ManagerPC.exited }
  | mgrCreateFail (s : PoolState) (hpc : s.pc = ManagerPC.top)
      (hdone : s.doneClosed = false)
      (hroom : s.buffer.length < s.poolSize) :
      Step s Act.mgrCreateFail s
  | mgrCreateOk (s : PoolState) (id : String) (hpc : s.pc = ManagerPC.top)
      (hdone : s.doneClosed = false)
      (hroom : s.buffer.length < s.poolSize) :
      Step s (Act.mgrCreateOk id) { s with pc := ManagerPC.pushing id }
  | mgrPush (s : PoolState) (id : String)
      (hpc : s.pc = ManagerPC.pushing id)
      (hroom : s.buffer.length < s.poolSize) :
      Step s (Act.mgrPush id)
        { s with buffer := s.buffer ++ [id], pc := ManagerPC.top }
  | mgrPushAbort (s : PoolState) (id : String)
      (hpc : s.pc = ManagerPC.pushing id)
      (hdone : s.doneClosed = true) :
      Step s (Act.mgrPushAbort id)
        { s with pc := ManagerPC.exited, removed := s.removed ++ [id] }
  | mgrFullSleep (s : PoolState) (hpc : s.pc = ManagerPC.top)
      (hdone : s.doneClosed = false)
      (hfull : ¬ s.buffer.length < s.poolSize) :
      Step s Act.mgrFullSleep s
  | getOk (s : PoolState) (id : String) (rest : List String)
      (hbuf : s.buffer = id :: rest) :
      Step s (Act.getOk id) { s with buffer := rest }
  | getCancelled (s : PoolState) :
      Step s Act.getCancelled s
  | stopClose (s : PoolState) (hdone : s.doneClosed = false) :
      Step s Act.stopClose { s with doneClosed := true }
  | stopDrainOne (s : PoolState) (id : String) (rest : List String)
      (hbuf : s.buffer = id :: rest)
      (hmgr : s.pc = ManagerPC.exited ∨ s.pc = ManagerPC.notStarted) :
      Step s (Act.stopDrainOne id)
        { s with buffer := rest, removed := s.removed ++ [id] }

/-- States reachable from a freshly constructed pool by any interleaving of
Start, manager, GetContainer and Stop transitions. -/
inductive Reachable (cfg : Config) : PoolState → Prop
  | init : Reachable cfg (NewPool cfg)
  | step {s : PoolState} {a : Act} {s' : PoolState} :
      Reachable cfg s → Step s a s' → Reachable cfg s'

/-- Rank of the manager goroutine once shutdown has been signalled: number of
steps it can still take before it has exited. -/
def mgrRank : ManagerPC → Nat
  | ManagerPC.pushing _ => 2
  | ManagerPC.top => 1
  | ManagerPC.exited => 0
  | ManagerPC.notStarted => 0

/-- A pool whose manager is running with one warm container buffered. -/
def poolOneWarm : PoolState :=
  { poolSize := 3
    buffer := ["c17"]
    doneClosed := false
    started := true
    launches := 1
    pc := ManagerPC.top
    removed := [] }

/-- A pool whose manager is running with two warm containers buffered. -/
def poolTwoWarm : PoolState :=
  { poolSize := 3
    buffer := ["c1", "c2"]
    doneClosed := false
    started := true
    launches := 1
    pc := ManagerPC.top
    removed := [] }

/-- The pool `poolTwoWarm` after one container has been dequeued. -/
def poolTwoWarmDequeued : PoolState := { poolTwoWarm with buffer := ["c2"] }

/-- A running pool observed at the top of the manager loop. -/
def mgrTopState : PoolState :=
  { poolSize := 3
    buffer := []
    doneClosed := false
    started := true
    launches := 1
    pc := ManagerPC.top
    removed := [] }

/-- A pool whose manager holds a fresh container "w1" while shutdown has been
signalled. -/
def mgrPushingState : PoolState :=
  { poolSize := 3
    buffer := []
    doneClosed := true
    started := true
    launches := 1
    pc := ManagerPC.pushing "w1"
    removed := [] }

/-- The state the manager reaches after aborting the push of "w1". -/
def mgrAbortedState : PoolState :=
  { mgrPushingState with
    pc := ManagerPC.exited
    removed := mgrPushingState.removed ++ ["w1"] }

/-- A running pool with two buffered containers on which Stop is invoked. -/
def stoppablePool : PoolState :=
  { poolSize := 3
    buffer := ["c1", "c2"]
    doneClosed := false
    started := true
    launches := 1
    pc := ManagerPC.top
    removed := [] }

/-- The result of Stop on `stoppablePool`. -/
def stoppedPool : PoolState :=
  { stoppablePool with
    doneClosed := true
    pc := ManagerPC.exited
    buffer := []
    removed := ["c1", "c2"] }

/-- A demonstration request. -/
def demoReq : ExecutionRequest := { code := "while True: pass" }

/-- An oracle for a run whose deadline fires before end-of-stream. -/
def envTimeout : ExecEnv :=
  { ctxCancelled := false
    selectChoice := SelectChoice.recvContainer
    execCreate := Except.ok "exec1"
    attach := Except.ok ()
    deadlineFirst := true
    inspect := Except.error "not inspected"
    stdoutData := ""
    stderrData := ""
    elapsed := 2000000000 }

/-- An oracle for a run that completes before the deadline with exit code 2. -/
def envDone : ExecEnv :=
  { ctxCancelled := false
    selectChoice := SelectChoice.recvContainer
    execCreate := Except.ok "exec1"
    attach := Except.ok ()
    deadlineFirst := false
    inspect := Except.ok 2
    stdoutData := ""
    stderrData := "SyntaxError: invalid syntax\n"
    elapsed := 150000000 }

lemma drainList_eq (buf removed : List String) :
    drainList buf removed = removed ++ buf := by
  induction buf generalizing removed with
  | nil => simp [drainList]
  | cons id rest ih => simp [drainList, ih]

lemma getContainer_got_inv (s : PoolState) (c : Bool) (ch : SelectChoice)
    (id : String) (s1 : PoolState)
    (h : s.getContainer c ch = (GetResult.got id, s1)) :
    s.buffer = id :: s1.buffer ∧ s1.poolSize = s.poolSize := by
  unfold PoolState.getContainer at h
  rcases hb : s.buffer with _ | ⟨id0, rest⟩ <;> rw [hb] at h <;>
    cases c <;> cases ch <;> simp_all <;>
    simp [← h.2, hb, h.1]

/-- C10: inside the replenishment step, if ContainerCreate succeeds but
ContainerStart fails, createContainer force-removes the just-created
container before returning the error, so a start failure never leaks a
created-but-unstarted instance. -/
theorem createContainer_start_failure_cleans_up
    (createRes : Except String String) (startRes : String → Except String Unit)
    (id e : String) (hc : createRes = Except.ok id)
    (hs : startRes id = Except.error e) :
    createContainer createRes startRes =
      (Except.error ("ContainerStart failed: " ++ e), [id]) := by
  subst hc
  simp [createContainer, hs]

theorem createContainer_start_failure_cleans_up_witness :
    createContainer (Except.ok "c9") (fun _ => Except.error "oom") =
      (Except.error ("ContainerStart failed: " ++ "oom"), ["c9"]) :=
  createContainer_start_failure_cleans_up (Except.ok "c9")
    (fun _ => Except.error "oom") "c9" "oom" rfl rfl

/-- C3 counterexample: with an already-cancelled context and a non-empty
buffer, both cases of GetContainer's select are ready and Go resolves the
race pseudo-randomly; when the receive case wins, the call returns container
"c17" and removes it from the buffer instead of returning the context's
error. -/
theorem getContainer_cancelled_counterexample :
    (poolOneWarm.getContainer true SelectChoice.recvContainer).1 =
        GetResult.got "c17" ∧
    (poolOneWarm.getContainer true SelectChoice.recvContainer).2.buffer = [] ∧
    GetResult.got "c17" ≠ GetResult.ctxErr := by
  refine ⟨rfl, rfl, ?_⟩
  decide

/-- C3 (amended): with a cancelled context, GetContainer returns the
context's error and leaves the pool unchanged whenever the buffer is empty
(in particular whenever the call was blocked) or the select race resolves in
favor of the cancellation case; with a pre-cancelled context and a non-empty
buffer the select may instead deliver a container. -/
theorem getContainer_cancelled_consumes_nothing (s : PoolState)
    (ch : SelectChoice) (h : s.buffer = [] ∨ ch = SelectChoice.ctxDone) :
    s.getContainer true ch = (GetResult.ctxErr, s) := by
  rcases hb : s.buffer with _ | ⟨id, rest⟩
  · cases ch <;> simp [PoolState.getContainer, hb]
  · rcases h with h | h
    · rw [hb] at h
      cases h
    · subst h
      simp [PoolState.getContainer, hb]

theorem getContainer_cancelled_consumes_nothing_witness :
    PoolState.getContainer (NewPool DefaultConfig) true
        SelectChoice.recvContainer =
      (GetResult.ctxErr, NewPool DefaultConfig) :=
  getContainer_cancelled_consumes_nothing (NewPool DefaultConfig)
    SelectChoice.recvContainer (Or.inl rfl)

/-- C2: if the sub-context deadline fires before end-of-stream, Execute
returns a nil error and a normal ExecutionResult whose exit code is 124 and
whose stderr is the captured stderr with the timeout notice appended. -/
theorem execute_timeout_result (env : ExecEnv) (s : PoolState)
    (req : ExecutionRequest) (cid eid : String) (s1 : PoolState)
    (hget : s.getContainer env.ctxCancelled env.selectChoice =
      (GetResult.got cid, s1))
    (hcreate : env.execCreate = Except.ok eid)
    (hattach : env.attach = Except.ok ())
    (hdl : env.deadlineFirst = true) :
    Executor.execute env s req =
      some (Except.ok
        { stdout := env.stdoutData
          stderr := env.stderrData ++ "\nExecution timed out.\n"
          exitCode := 124
          duration := env.elapsed }, s1, [cid]) := by
  unfold Executor.execute
  rw [hget]
  simp [hcreate, hattach, hdl]

theorem execute_timeout_result_witness :
    Executor.execute envTimeout poolTwoWarm demoReq =
      some (Except.ok
        { stdout := envTimeout.stdoutData
          stderr := envTimeout.stderrData ++ "\nExecution timed out.\n"
          exitCode := 124
          duration := envTimeout.elapsed }, poolTwoWarmDequeued, ["c1"]) :=
  execute_timeout_result envTimeout poolTwoWarm demoReq "c1" "exec1"
    poolTwoWarmDequeued rfl rfl rfl rfl

/-- C7: when the stream completes before the deadline, Execute returns the
exit status reported by ContainerExecInspect with a nil error — a nonzero
exit is a normal result — whereas an ExecCreate or ExecAttach failure makes
Execute return a non-nil error and no result. -/
theorem execute_completion_and_infra_errors (env : ExecEnv) (s : PoolState)
    (req : ExecutionRequest) (cid eid : String) (s1 : PoolState) (c : Int)
    (hget : s.getContainer env.ctxCancelled env.selectChoice =
      (GetResult.got cid, s1)) :
    (env.execCreate = Except.ok eid → env.attach = Except.ok () →
      env.deadlineFirst = false → env.inspect = Except.ok c →
      Executor.execute env s req =
        some (Except.ok
          { stdout := env.stdoutData
            stderr := env.stderrData
            exitCode := c
            duration := env.elapsed }, s1, [cid])) ∧
    (∀ e, env.execCreate = Except.error e →
      Executor.execute env s req =
        some (Except.error ("failed to create exec: " ++ e), s1, [cid])) ∧
    (∀ e, env.execCreate = Except.ok eid → env.attach = Except.error e →
      Executor.execute env s req =
        some (Except.error ("failed to attach to exec: " ++ e), s1, [cid])) := by
  refine ⟨?_, ?_, ?_⟩
  · intro h1 h2 h3 h4
    unfold Executor.execute
    rw [hget]
    simp [h1, h2, h3, h4]
  · intro e h1
    unfold Executor.execute
    rw [hget]
    simp [h1]
  · intro e h1 h2
    unfold Executor.execute
    rw [hget]
    simp [h1, h2]

theorem execute_completion_and_infra_errors_witness :
    Executor.execute envDone poolTwoWarm demoReq =
      some (Except.ok
        { stdout := envDone.stdoutData
          stderr := envDone.stderrData
          exitCode := 2
          duration := envDone.elapsed }, poolTwoWarmDequeued, ["c1"]) :=
  (execute_completion_and_infra_errors envDone poolTwoWarm demoReq "c1"
    "exec1" poolTwoWarmDequeued 2 rfl).1 rfl rfl rfl rfl

/-- C1: once GetContainer has handed a container to Execute, every exit path
(normal completion, exec-create failure, attach failure, and timeout) passes
exactly that container id to ContainerRemove exactly once, and the pool
buffer after the call is the dequeued buffer — the container is never put
back. -/
theorem execute_force_removes_acquired_exactly_once (env : ExecEnv)
    (s : PoolState) (req : ExecutionRequest) (cid : String) (s1 : PoolState)
    (hget : s.getContainer env.ctxCancelled env.selectChoice =
      (GetResult.got cid, s1)) :
    (∃ r, Executor.execute env s req = some (r, s1, [cid])) ∧
    s.buffer = cid :: s1.buffer := by
  refine ⟨?_, (getContainer_got_inv s _ _ cid s1 hget).1⟩
  unfold Executor.execute
  rw [hget]
  rcases hce : env.execCreate with e | eid <;>
    rcases hat : env.attach with e2 | u <;>
    cases hdl : env.deadlineFirst <;>
    simp [hce, hat, hdl]

theorem execute_force_removes_acquired_exactly_once_witness :
    (∃ r, Executor.execute envTimeout poolTwoWarm demoReq =
      some (r, poolTwoWarmDequeued, ["c1"])) ∧
    poolTwoWarm.buffer = "c1" :: poolTwoWarmDequeued.buffer :=
  execute_force_removes_acquired_exactly_once envTimeout poolTwoWarm demoReq
    "c1" poolTwoWarmDequeued rfl

/-- C8: Pool.Start is idempotent — any sequence of one or more Start calls
leaves the pool in the state of a single Start call, and a single Start on a
fresh pool launches exactly one replenishment task. -/
theorem start_idempotent (s : PoolState) (n : Nat) (h : s.started = false) :
    PoolState.start^[n + 1] s = PoolState.start s ∧
    (PoolState.start s).launches = s.launches + 1 ∧
    (PoolState.start s).pc = ManagerPC.top := by
  have hfix : PoolState.start (PoolState.start s) = PoolState.start s := by
    simp [PoolState.start, h]
  refine ⟨?_, ?_, ?_⟩
  · rw [Function.iterate_succ_apply]
    exact Function.iterate_fixed hfix n
  · simp [PoolState.start, h]
  · simp [PoolState.start, h]

theorem start_idempotent_witness :
    PoolState.start^[2] (NewPool DefaultConfig) =
        PoolState.start (NewPool DefaultConfig) ∧
    (PoolState.start (NewPool DefaultConfig)).launches =
        (NewPool DefaultConfig).launches + 1 ∧
    (PoolState.start (NewPool DefaultConfig)).pc = ManagerPC.top :=
  start_idempotent (NewPool DefaultConfig) 1 rfl

/-- C9: Pool.Stop is not idempotent — once a Stop call has returned, a second
Stop call executes `close(p.done)` on an already-closed channel and panics. -/
theorem stop_not_idempotent (s s' : PoolState)
    (h : PoolState.stop s = Except.ok s') :
    PoolState.stop s' = Except.error GoPanic.closeOfClosedChannel := by
  unfold PoolState.stop at h
  by_cases hd : s.doneClosed = true
  · simp [hd] at h
  · simp [hd] at h
    subst h
    simp [PoolState.stop]

theorem stop_not_idempotent_witness :
    PoolState.stop stoppedPool = Except.error GoPanic.closeOfClosedChannel :=
  stop_not_idempotent stoppablePool stoppedPool rfl

/-- C5: the replenishment task survives every container-creation failure (the
failed iteration leaves it at the top of its loop, ready to retry after the
backoff), and when the stop signal wins the enqueue race the freshly created
container is recorded as removed, not enqueued and not leaked. -/
theorem manager_create_failure_nonfatal_and_abort_cleans_up
    (s s' t t' : PoolState) (id : String)
    (h1 : Step s Act.mgrCreateFail s')
    (h2 : Step t (Act.mgrPushAbort id) t') :
    (s' = s ∧ s'.pc = ManagerPC.top) ∧
    (t'.buffer = t.buffer ∧ t'.removed = t.removed ++ [id] ∧
      t'.pc = ManagerPC.exited) := by
  constructor
  · cases h1 with
    | mgrCreateFail hpc hdone hroom => exact ⟨rfl, hpc⟩
  · cases h2 with
    | mgrPushAbort hpc hdone => exact ⟨rfl, rfl, rfl⟩

theorem manager_create_failure_nonfatal_and_abort_cleans_up_witness :
    (mgrTopState = mgrTopState ∧ mgrTopState.pc = ManagerPC.top) ∧
    (mgrAbortedState.buffer = mgrPushingState.buffer ∧
      mgrAbortedState.removed = mgrPushingState.removed ++ ["w1"] ∧
      mgrAbortedState.pc = ManagerPC.exited) :=
  manager_create_failure_nonfatal_and_abort_cleans_up mgrTopState mgrTopState
    mgrPushingState mgrAbortedState "w1"
    (Step.mgrCreateFail mgrTopState rfl rfl (by decide))
    (Step.mgrPushAbort mgrPushingState "w1" rfl rfl)

/-- C6: after a successful Stop, the buffer is empty, the removal log has
grown by exactly the containers that were in the buffer (and nothing else, so
containers already dequeued by in-flight Execute calls are untouched), and
the replenishment task has exited whenever it had been launched; the exit
forced by `wg.Wait` is justified on the step relation: once the done channel
is closed every manager step strictly decreases the manager's rank and a
manager step remains enabled until it has exited. -/
theorem stop_clean_shutdown (s s' : PoolState)
    (h : PoolState.stop s = Except.ok s') :
    s'.buffer = [] ∧
    s'.removed = s.removed ++ s.buffer ∧
    (s.pc ≠ ManagerPC.notStarted → s'.pc = ManagerPC.exited) ∧
    (∀ t a u, t.doneClosed = true → Step t a u → a.isMgr = true →
      mgrRank u.pc < mgrRank t.pc) ∧
    (∀ t : PoolState, t.doneClosed = true → mgrRank t.pc ≠ 0 →
      ∃ a u, Step t a u ∧ a.isMgr = true) := by
  unfold PoolState.stop at h
  by_cases hd : s.doneClosed = true
  · simp [hd] at h
  · simp [hd] at h
    refine ⟨?_, ?_, ?_, ?_, ?_⟩
    · rw [← h]
    · rw [← h]
      simp [drainList_eq]
    · intro hne
      rw [← h]
      simp [if_neg hne]
    · intro t a u htd hstep hmgr
      cases hstep <;> simp_all [Act.isMgr, mgrRank]
    · intro t htd hrank
      cases hpc : t.pc with
      | notStarted => simp [mgrRank, hpc] at hrank
      | top =>
        exact ⟨Act.mgrExit, { t with pc := ManagerPC.exited },
          Step.mgrExit t hpc htd, rfl⟩
      | pushing id =>
        exact ⟨Act.mgrPushAbort id,
          { t with pc := ManagerPC.exited, removed := t.removed ++ [id] },
          Step.mgrPushAbort t id hpc htd, rfl⟩
      | exited => simp [mgrRank, hpc] at hrank

theorem stop_clean_shutdown_witness :
    stoppedPool.buffer = [] ∧
    stoppedPool.removed = stoppablePool.removed ++ stoppablePool.buffer ∧
    (stoppablePool.pc ≠ ManagerPC.notStarted →
      stoppedPool.pc = ManagerPC.exited) ∧
    (∀ t a u, t.doneClosed = true → Step t a u → a.isMgr = true →
      mgrRank u.pc < mgrRank t.pc) ∧
    (∀ t : PoolState, t.doneClosed = true → mgrRank t.pc ≠ 0 →
      ∃ a u, Step t a u ∧ a.isMgr = true) :=
  stop_clean_shutdown stoppablePool stoppedPool rfl

/-- C4: in every reachable state of the pool — under any interleaving of
Start, replenishment, GetContainer and Stop transitions — the buffer holds
between 0 and poolSize container ids, where poolSize is the capacity fixed
at construction. -/
theorem pool_buffer_bounded (cfg : Config) (s : PoolState)
    (h : Reachable cfg s) :
    s.buffer.length ≤ s.poolSize ∧ s.poolSize = cfg.poolSize := by
  induction h with
  | init => exact ⟨by simp [NewPool], rfl⟩
  | @step t a t' hr hs ih =>
    cases hs with
    | startCall =>
      by_cases hst : t.started = true <;> simp_all [PoolState.start] <;> omega
    | mgrExit hpc hdone => simpa using ih
    | mgrCreateFail hpc hdone hroom => exact ih
    | mgrCreateOk id hpc hdone hroom => simpa using ih
    | mgrPush id hpc hroom =>
      have h2 := ih.2
      refine ⟨?_, by simpa using h2⟩
      have h1 := ih.1
      simp only [List.length_append, List.length_cons, List.length_nil]
      omega
    | mgrPushAbort id hpc hdone => simpa using ih
    | mgrFullSleep hpc hdone hfull => exact ih
    | getOk id rest hbuf =>
      have h2 := ih.2
      refine ⟨?_, by simpa using h2⟩
      have h1 := ih.1
      rw [hbuf] at h1
      simp only [List.length_cons] at h1
      simp only [List.length_cons]
      omega
    | getCancelled => exact ih
    | stopClose hdone => simpa using ih
    | stopDrainOne id rest hbuf hmgr =>
      have h2 := ih.2
      refine ⟨?_, by simpa using h2⟩
      have h1 := ih.1
      rw [hbuf] at h1
      simp only [List.length_cons] at h1
      dsimp only
      omega

theorem pool_buffer_bounded_witness :
    (NewPool DefaultConfig).buffer.length ≤ (NewPool DefaultConfig).poolSize ∧
    (NewPool DefaultConfig).poolSize = DefaultConfig.poolSize :=
  pool_buffer_bounded DefaultConfig (NewPool DefaultConfig) Reachable.init

end CodingPlayground
